import Mathlib

/-!
Verification of the Smart-City pollution monitor's numeric core:
AQI breakpoint interpolation, status classifiers, trend and comparison
logic, and the synthetic reading generator.  Python floats are modelled
by exact rationals; Python's `round` (round-half-to-even) is modelled by
`rne` below.
-/

namespace SmartCity

/-- Python's `round` to the nearest integer, ties to even (banker's rounding). -/
def rne (x : ℚ) : ℤ :=
  if x - ⌊x⌋ < 1/2 then ⌊x⌋
  else if 1/2 < x - ⌊x⌋ then ⌊x⌋ + 1
  else if ⌊x⌋ % 2 = 0 then ⌊x⌋ else ⌊x⌋ + 1

/-- Python's `round(x, n)`: round to `n` decimal digits. -/
def roundTo (n : ℕ) (x : ℚ) : ℚ := (rne (x * 10 ^ n) : ℚ) / 10 ^ n

lemma rne_eq_floor_or_succ (x : ℚ) : rne x = ⌊x⌋ ∨ rne x = ⌊x⌋ + 1 := by
  unfold rne
  split_ifs <;> simp

lemma floor_le_rne (x : ℚ) : ⌊x⌋ ≤ rne x := by
  rcases rne_eq_floor_or_succ x with h | h <;> omega

lemma rne_intCast (n : ℤ) : rne (n : ℚ) = n := by
  unfold rne
  rw [Int.floor_intCast]
  norm_num

lemma le_rne (m : ℤ) (x : ℚ) (h : (m : ℚ) ≤ x) : m ≤ rne x :=
  le_trans (Int.le_floor.mpr h) (floor_le_rne x)

lemma rne_le (m : ℤ) (x : ℚ) (h : x ≤ (m : ℚ)) : rne x ≤ m := by
  have hfl : ⌊x⌋ ≤ m := by
    have h1 : ((⌊x⌋ : ℤ) : ℚ) ≤ (m : ℚ) := le_trans (Int.floor_le x) h
    exact_mod_cast h1
  unfold rne
  split_ifs with h1 h2 h3
  · exact hfl
  · have hx : (⌊x⌋ : ℚ) + 1/2 ≤ x := by linarith [not_lt.mp h1]
    have : (⌊x⌋ : ℚ) < m := by linarith
    have : ⌊x⌋ < m := by exact_mod_cast this
    omega
  · exact hfl
  · have hx : (⌊x⌋ : ℚ) + 1/2 ≤ x := by linarith [not_lt.mp h1]
    have : (⌊x⌋ : ℚ) < m := by linarith
    have : ⌊x⌋ < m := by exact_mod_cast this
    omega

lemma rne_mono {x y : ℚ} (h : x ≤ y) : rne x ≤ rne y := by
  rcases lt_or_le ⌊x⌋ ⌊y⌋ with hf | hf
  · have h1 : rne x ≤ ⌊x⌋ + 1 := by
      rcases rne_eq_floor_or_succ x with h1 | h1 <;> omega
    have h2 : ⌊y⌋ ≤ rne y := floor_le_rne y
    omega
  · have hfe : ⌊x⌋ = ⌊y⌋ := le_antisymm (Int.floor_le_floor h) hf
    have hab : x - ((⌊y⌋ : ℤ) : ℚ) ≤ y - ((⌊y⌋ : ℤ) : ℚ) := by linarith
    unfold rne
    rw [hfe]
    split_ifs <;> first | omega | (exfalso; linarith)

lemma roundTo_mono (n : ℕ) {x y : ℚ} (h : x ≤ y) : roundTo n x ≤ roundTo n y := by
  unfold roundTo
  have hp : (0 : ℚ) < 10 ^ n := by positivity
  have h2 : rne (x * 10 ^ n) ≤ rne (y * 10 ^ n) :=
    rne_mono (mul_le_mul_of_nonneg_right h hp.le)
  have h3 : ((rne (x * 10 ^ n) : ℤ) : ℚ) ≤ ((rne (y * 10 ^ n) : ℤ) : ℚ) := by
    exact_mod_cast h2
  exact div_le_div_of_nonneg_right h3 hp.le

lemma roundTo_intCast (n : ℕ) (m : ℤ) : roundTo n (m : ℚ) = m := by
  unfold roundTo
  have : ((m : ℚ) * 10 ^ n) = ((m * 10 ^ n : ℤ) : ℚ) := by push_cast; ring
  rw [this, rne_intCast]
  push_cast
  field_simp

lemma le_roundTo (n : ℕ) (m : ℤ) (x : ℚ) (h : (m : ℚ) ≤ x) : (m : ℚ) ≤ roundTo n x := by
  calc (m : ℚ) = roundTo n (m : ℚ) := (roundTo_intCast n m).symm
    _ ≤ roundTo n x := roundTo_mono n h

lemma roundTo_le (n : ℕ) (m : ℤ) (x : ℚ) (h : x ≤ (m : ℚ)) : roundTo n x ≤ (m : ℚ) := by
  calc roundTo n x ≤ roundTo n (m : ℚ) := roundTo_mono n h
    _ = m := roundTo_intCast n m

/-- The EPA PM2.5 breakpoint table from `calculate_aqi`
(`src/app/services/aqi.py`, identical in `src/utils.py`):
`(bp_lo, bp_hi, aqi_lo, aqi_hi)` rows, scanned in order. -/
def breakpoints : List (ℚ × ℚ × ℚ × ℚ) :=
  [(0, 12, 0, 50),
   (12.1, 35.4, 51, 100),
   (35.5, 55.4, 101, 150),
   (55.5, 150.4, 151, 200),
   (150.5, 250.4, 201, 300),
   (250.5, 350.4, 301, 400),
   (350.5, 500.4, 401, 500)]

/-- The scan loop of `calculate_aqi`: first bucket containing `pm25` wins,
linear interpolation inside the bucket, `500` if no bucket matches. -/
def scanBreakpoints : List (ℚ × ℚ × ℚ × ℚ) → ℚ → ℤ
  | [], _ => 500
  | (bpLo, bpHi, aqiLo, aqiHi) :: rest, pm25 =>
    if bpLo ≤ pm25 ∧ pm25 ≤ bpHi then
      rne ((aqiHi - aqiLo) / (bpHi - bpLo) * (pm25 - bpLo) + aqiLo)
    else scanBreakpoints rest pm25

/-- `calculate_aqi` from `src/app/services/aqi.py` (= `src/utils.py`). -/
def calculate_aqi (pm25 : ℚ) : ℤ := scanBreakpoints breakpoints pm25

lemma scanBreakpoints_cons (bpLo bpHi aqiLo aqiHi : ℚ)
    (rest : List (ℚ × ℚ × ℚ × ℚ)) (pm25 : ℚ) :
    scanBreakpoints ((bpLo, bpHi, aqiLo, aqiHi) :: rest) pm25 =
      if bpLo ≤ pm25 ∧ pm25 ≤ bpHi then
        rne ((aqiHi - aqiLo) / (bpHi - bpLo) * (pm25 - bpLo) + aqiLo)
      else scanBreakpoints rest pm25 := rfl

lemma aqi_bucket1 (x : ℚ) (h1 : 0 ≤ x) (h2 : x ≤ 12) :
    calculate_aqi x = rne ((50 - 0) / (12 - 0) * (x - 0) + 0) := by
  unfold calculate_aqi breakpoints
  rw [scanBreakpoints_cons, if_pos ⟨h1, h2⟩]

lemma aqi_bucket2 (x : ℚ) (h1 : 12.1 ≤ x) (h2 : x ≤ 35.4) :
    calculate_aqi x = rne ((100 - 51) / (35.4 - 12.1) * (x - 12.1) + 51) := by
  unfold calculate_aqi breakpoints
  rw [scanBreakpoints_cons, if_neg (by rintro ⟨-, hc⟩; linarith),
    scanBreakpoints_cons, if_pos ⟨h1, h2⟩]

lemma aqi_bucket3 (x : ℚ) (h1 : 35.5 ≤ x) (h2 : x ≤ 55.4) :
    calculate_aqi x = rne ((150 - 101) / (55.4 - 35.5) * (x - 35.5) + 101) := by
  unfold calculate_aqi breakpoints
  rw [scanBreakpoints_cons, if_neg (by rintro ⟨-, hc⟩; linarith),
    scanBreakpoints_cons, if_neg (by rintro ⟨-, hc⟩; linarith),
    scanBreakpoints_cons, if_pos ⟨h1, h2⟩]

lemma aqi_bucket4 (x : ℚ) (h1 : 55.5 ≤ x) (h2 : x ≤ 150.4) :
    calculate_aqi x = rne ((200 - 151) / (150.4 - 55.5) * (x - 55.5) + 151) := by
  unfold calculate_aqi breakpoints
  rw [scanBreakpoints_cons, if_neg (by rintro ⟨-, hc⟩; linarith),
    scanBreakpoints_cons, if_neg (by rintro ⟨-, hc⟩; linarith),
    scanBreakpoints_cons, if_neg (by rintro ⟨-, hc⟩; linarith),
    scanBreakpoints_cons, if_pos ⟨h1, h2⟩]

lemma aqi_bucket5 (x : ℚ) (h1 : 150.5 ≤ x) (h2 : x ≤ 250.4) :
    calculate_aqi x = rne ((300 - 201) / (250.4 - 150.5) * (x - 150.5) + 201) := by
  unfold calculate_aqi breakpoints
  rw [scanBreakpoints_cons, if_neg (by rintro ⟨-, hc⟩; linarith),
    scanBreakpoints_cons, if_neg (by rintro ⟨-, hc⟩; linarith),
    scanBreakpoints_cons, if_neg (by rintro ⟨-, hc⟩; linarith),
    scanBreakpoints_cons, if_neg (by rintro ⟨-, hc⟩; linarith),
    scanBreakpoints_cons, if_pos ⟨h1, h2⟩]

lemma aqi_bucket6 (x : ℚ) (h1 : 250.5 ≤ x) (h2 : x ≤ 350.4) :
    calculate_aqi x = rne ((400 - 301) / (350.4 - 250.5) * (x - 250.5) + 301) := by
  unfold calculate_aqi breakpoints
  rw [scanBreakpoints_cons, if_neg (by rintro ⟨-, hc⟩; linarith),
    scanBreakpoints_cons, if_neg (by rintro ⟨-, hc⟩; linarith),
    scanBreakpoints_cons, if_neg (by rintro ⟨-, hc⟩; linarith),
    scanBreakpoints_cons, if_neg (by rintro ⟨-, hc⟩; linarith),
    scanBreakpoints_cons, if_neg (by rintro ⟨-, hc⟩; linarith),
    scanBreakpoints_cons, if_pos ⟨h1, h2⟩]

lemma aqi_bucket7 (x : ℚ) (h1 : 350.5 ≤ x) (h2 : x ≤ 500.4) :
    calculate_aqi x = rne ((500 - 401) / (500.4 - 350.5) * (x - 350.5) + 401) := by
  unfold calculate_aqi breakpoints
  rw [scanBreakpoints_cons, if_neg (by rintro ⟨-, hc⟩; linarith),
    scanBreakpoints_cons, if_neg (by rintro ⟨-, hc⟩; linarith),
    scanBreakpoints_cons, if_neg (by rintro ⟨-, hc⟩; linarith),
    scanBreakpoints_cons, if_neg (by rintro ⟨-, hc⟩; linarith),
    scanBreakpoints_cons, if_neg (by rintro ⟨-, hc⟩; linarith),
    scanBreakpoints_cons, if_neg (by rintro ⟨-, hc⟩; linarith),
    scanBreakpoints_cons, if_pos ⟨h1, h2⟩]

lemma aqi_bucket1_bounds (x : ℚ) (h1 : 0 ≤ x) (h2 : x ≤ 12) :
    0 ≤ calculate_aqi x ∧ calculate_aqi x ≤ 50 := by
  rw [aqi_bucket1 x h1 h2]
  refine ⟨le_rne 0 _ ?_, rne_le 50 _ ?_⟩ <;> push_cast <;> nlinarith

lemma aqi_bucket2_bounds (x : ℚ) (h1 : 12.1 ≤ x) (h2 : x ≤ 35.4) :
    51 ≤ calculate_aqi x ∧ calculate_aqi x ≤ 100 := by
  rw [aqi_bucket2 x h1 h2]
  refine ⟨le_rne 51 _ ?_, rne_le 100 _ ?_⟩ <;> push_cast <;> nlinarith

lemma aqi_bucket3_bounds (x : ℚ) (h1 : 35.5 ≤ x) (h2 : x ≤ 55.4) :
    101 ≤ calculate_aqi x ∧ calculate_aqi x ≤ 150 := by
  rw [aqi_bucket3 x h1 h2]
  refine ⟨le_rne 101 _ ?_, rne_le 150 _ ?_⟩ <;> push_cast <;> nlinarith

lemma aqi_bucket4_bounds (x : ℚ) (h1 : 55.5 ≤ x) (h2 : x ≤ 150.4) :
    151 ≤ calculate_aqi x ∧ calculate_aqi x ≤ 200 := by
  rw [aqi_bucket4 x h1 h2]
  refine ⟨le_rne 151 _ ?_, rne_le 200 _ ?_⟩ <;> push_cast <;> nlinarith

lemma aqi_bucket5_bounds (x : ℚ) (h1 : 150.5 ≤ x) (h2 : x ≤ 250.4) :
    201 ≤ calculate_aqi x ∧ calculate_aqi x ≤ 300 := by
  rw [aqi_bucket5 x h1 h2]
  refine ⟨le_rne 201 _ ?_, rne_le 300 _ ?_⟩ <;> push_cast <;> nlinarith

lemma aqi_bucket6_bounds (x : ℚ) (h1 : 250.5 ≤ x) (h2 : x ≤ 350.4) :
    301 ≤ calculate_aqi x ∧ calculate_aqi x ≤ 400 := by
  rw [aqi_bucket6 x h1 h2]
  refine ⟨le_rne 301 _ ?_, rne_le 400 _ ?_⟩ <;> push_cast <;> nlinarith

lemma aqi_bucket7_bounds (x : ℚ) (h1 : 350.5 ≤ x) (h2 : x ≤ 500.4) :
    401 ≤ calculate_aqi x ∧ calculate_aqi x ≤ 500 := by
  rw [aqi_bucket7 x h1 h2]
  refine ⟨le_rne 401 _ ?_, rne_le 500 _ ?_⟩ <;> push_cast <;> nlinarith

/-- The union of the seven PM2.5 breakpoint ranges of `breakpoints`. -/
def in_breakpoint_range (x : ℚ) : Prop :=
  (0 ≤ x ∧ x ≤ 12) ∨ (12.1 ≤ x ∧ x ≤ 35.4) ∨ (35.5 ≤ x ∧ x ≤ 55.4) ∨
  (55.5 ≤ x ∧ x ≤ 150.4) ∨ (150.5 ≤ x ∧ x ≤ 250.4) ∨
  (250.5 ≤ x ∧ x ≤ 350.4) ∨ (350.5 ≤ x ∧ x ≤ 500.4)

set_option maxHeartbeats 2000000 in
lemma calculate_aqi_mono {a b : ℚ} (ha : in_breakpoint_range a)
    (hb : in_breakpoint_range b) (hab : a ≤ b) :
    calculate_aqi a ≤ calculate_aqi b := by
  unfold in_breakpoint_range at ha hb
  rcases ha with ⟨ha1, ha2⟩ | ⟨ha1, ha2⟩ | ⟨ha1, ha2⟩ | ⟨ha1, ha2⟩ | ⟨ha1, ha2⟩ | ⟨ha1, ha2⟩ | ⟨ha1, ha2⟩ <;>
    rcases hb with ⟨hb1, hb2⟩ | ⟨hb1, hb2⟩ | ⟨hb1, hb2⟩ | ⟨hb1, hb2⟩ | ⟨hb1, hb2⟩ | ⟨hb1, hb2⟩ | ⟨hb1, hb2⟩ <;>
    first
    | (rw [aqi_bucket1 a ha1 ha2, aqi_bucket1 b hb1 hb2]; exact rne_mono (by nlinarith))
    | (rw [aqi_bucket2 a ha1 ha2, aqi_bucket2 b hb1 hb2]; exact rne_mono (by nlinarith))
    | (rw [aqi_bucket3 a ha1 ha2, aqi_bucket3 b hb1 hb2]; exact rne_mono (by nlinarith))
    | (rw [aqi_bucket4 a ha1 ha2, aqi_bucket4 b hb1 hb2]; exact rne_mono (by nlinarith))
    | (rw [aqi_bucket5 a ha1 ha2, aqi_bucket5 b hb1 hb2]; exact rne_mono (by nlinarith))
    | (rw [aqi_bucket6 a ha1 ha2, aqi_bucket6 b hb1 hb2]; exact rne_mono (by nlinarith))
    | (rw [aqi_bucket7 a ha1 ha2, aqi_bucket7 b hb1 hb2]; exact rne_mono (by nlinarith))
    | (exfalso; linarith)
    | exact le_trans (aqi_bucket1_bounds a ha1 ha2).2
        (le_trans (by norm_num) (aqi_bucket2_bounds b hb1 hb2).1)
    | exact le_trans (aqi_bucket1_bounds a ha1 ha2).2
        (le_trans (by norm_num) (aqi_bucket3_bounds b hb1 hb2).1)
    | exact le_trans (aqi_bucket1_bounds a ha1 ha2).2
        (le_trans (by norm_num) (aqi_bucket4_bounds b hb1 hb2).1)
    | exact le_trans (aqi_bucket1_bounds a ha1 ha2).2
        (le_trans (by norm_num) (aqi_bucket5_bounds b hb1 hb2).1)
    | exact le_trans (aqi_bucket1_bounds a ha1 ha2).2
        (le_trans (by norm_num) (aqi_bucket6_bounds b hb1 hb2).1)
    | exact le_trans (aqi_bucket1_bounds a ha1 ha2).2
        (le_trans (by norm_num) (aqi_bucket7_bounds b hb1 hb2).1)
    | exact le_trans (aqi_bucket2_bounds a ha1 ha2).2
        (le_trans (by norm_num) (aqi_bucket3_bounds b hb1 hb2).1)
    | exact le_trans (aqi_bucket2_bounds a ha1 ha2).2
        (le_trans (by norm_num) (aqi_bucket4_bounds b hb1 hb2).1)
    | exact le_trans (aqi_bucket2_bounds a ha1 ha2).2
        (le_trans (by norm_num) (aqi_bucket5_bounds b hb1 hb2).1)
    | exact le_trans (aqi_bucket2_bounds a ha1 ha2).2
        (le_trans (by norm_num) (aqi_bucket6_bounds b hb1 hb2).1)
    | exact le_trans (aqi_bucket2_bounds a ha1 ha2).2
        (le_trans (by norm_num) (aqi_bucket7_bounds b hb1 hb2).1)
    | exact le_trans (aqi_bucket3_bounds a ha1 ha2).2
        (le_trans (by norm_num) (aqi_bucket4_bounds b hb1 hb2).1)
    | exact le_trans (aqi_bucket3_bounds a ha1 ha2).2
        (le_trans (by norm_num) (aqi_bucket5_bounds b hb1 hb2).1)
    | exact le_trans (aqi_bucket3_bounds a ha1 ha2).2
        (le_trans (by norm_num) (aqi_bucket6_bounds b hb1 hb2).1)
    | exact le_trans (aqi_bucket3_bounds a ha1 ha2).2
        (le_trans (by norm_num) (aqi_bucket7_bounds b hb1 hb2).1)
    | exact le_trans (aqi_bucket4_bounds a ha1 ha2).2
        (le_trans (by norm_num) (aqi_bucket5_bounds b hb1 hb2).1)
    | exact le_trans (aqi_bucket4_bounds a ha1 ha2).2
        (le_trans (by norm_num) (aqi_bucket6_bounds b hb1 hb2).1)
    | exact le_trans (aqi_bucket4_bounds a ha1 ha2).2
        (le_trans (by norm_num) (aqi_bucket7_bounds b hb1 hb2).1)
    | exact le_trans (aqi_bucket5_bounds a ha1 ha2).2
        (le_trans (by norm_num) (aqi_bucket6_bounds b hb1 hb2).1)
    | exact le_trans (aqi_bucket5_bounds a ha1 ha2).2
        (le_trans (by norm_num) (aqi_bucket7_bounds b hb1 hb2).1)
    | exact le_trans (aqi_bucket6_bounds a ha1 ha2).2
        (le_trans (by norm_num) (aqi_bucket7_bounds b hb1 hb2).1)

/-- C1 (counterexample): the claim that `calculate_aqi` is monotonically
non-decreasing on all of `[0, 500.4]` is false: `12.05` lies in the gap
between the first two breakpoint ranges, so `calculate_aqi 12.05 = 500`,
yet `calculate_aqi 12.1 = 51` although `12.05 ≤ 12.1`. -/
theorem aqi_not_monotone_on_interval :
    (0 : ℚ) ≤ 12.05 ∧ (12.05 : ℚ) ≤ 12.1 ∧ (12.1 : ℚ) ≤ 500.4 ∧
    ¬(calculate_aqi 12.05 ≤ calculate_aqi 12.1) := by
  norm_num [calculate_aqi, breakpoints, scanBreakpoints, rne]

/-- C1 (amended): on the union of the seven breakpoint ranges (which is
`[0, 500.4]` minus the six inter-bucket gaps), `calculate_aqi` is
monotonically non-decreasing, and it is continuous at every bucket
boundary in the sense that the value at the top of one range and at the
bottom of the next differ by exactly one index point; in particular
`calculate_aqi 12.0 = 50` and `calculate_aqi 12.1 = 51`. -/
theorem aqi_monotone_on_breakpoint_ranges :
    (∀ a b : ℚ, in_breakpoint_range a → in_breakpoint_range b → a ≤ b →
      calculate_aqi a ≤ calculate_aqi b) ∧
    calculate_aqi 0 = 0 ∧ calculate_aqi 12 = 50 ∧
    calculate_aqi 12.1 = 51 ∧ calculate_aqi 35.4 = 100 ∧
    calculate_aqi 35.5 = 101 ∧ calculate_aqi 55.4 = 150 ∧
    calculate_aqi 55.5 = 151 ∧ calculate_aqi 150.4 = 200 ∧
    calculate_aqi 150.5 = 201 ∧ calculate_aqi 250.4 = 300 ∧
    calculate_aqi 250.5 = 301 ∧ calculate_aqi 350.4 = 400 ∧
    calculate_aqi 350.5 = 401 ∧ calculate_aqi 500.4 = 500 := by
  refine ⟨fun a b ha hb hab => calculate_aqi_mono ha hb hab, ?_⟩
  norm_num [calculate_aqi, breakpoints, scanBreakpoints, rne]

/-- C1 (witness): the monotonicity part applied at `10 ≤ 20`. -/
theorem aqi_monotone_witness : calculate_aqi 10 ≤ calculate_aqi 20 :=
  aqi_monotone_on_breakpoint_ranges.1 10 20 (Or.inl (by norm_num))
    (Or.inr (Or.inl (by norm_num))) (by norm_num)

/-- C2: for a PM2.5 value inside one of the seven breakpoint ranges
`[lo, hi]` with index range `[ilo, ihi]`, `calculate_aqi` returns
`round(ilo + (ihi - ilo)/(hi - lo) * (pm25 - lo))`, and for every
`pm25 > 500.4` it returns 500 (capped, not extrapolated). -/
theorem aqi_formula_correct : ∀ pm25 : ℚ,
    (0 ≤ pm25 → pm25 ≤ 12 →
      calculate_aqi pm25 = rne (0 + (50 - 0) / (12 - 0) * (pm25 - 0))) ∧
    (12.1 ≤ pm25 → pm25 ≤ 35.4 →
      calculate_aqi pm25 = rne (51 + (100 - 51) / (35.4 - 12.1) * (pm25 - 12.1))) ∧
    (35.5 ≤ pm25 → pm25 ≤ 55.4 →
      calculate_aqi pm25 = rne (101 + (150 - 101) / (55.4 - 35.5) * (pm25 - 35.5))) ∧
    (55.5 ≤ pm25 → pm25 ≤ 150.4 →
      calculate_aqi pm25 = rne (151 + (200 - 151) / (150.4 - 55.5) * (pm25 - 55.5))) ∧
    (150.5 ≤ pm25 → pm25 ≤ 250.4 →
      calculate_aqi pm25 = rne (201 + (300 - 201) / (250.4 - 150.5) * (pm25 - 150.5))) ∧
    (250.5 ≤ pm25 → pm25 ≤ 350.4 →
      calculate_aqi pm25 = rne (301 + (400 - 301) / (350.4 - 250.5) * (pm25 - 250.5))) ∧
    (350.5 ≤ pm25 → pm25 ≤ 500.4 →
      calculate_aqi pm25 = rne (401 + (500 - 401) / (500.4 - 350.5) * (pm25 - 350.5))) ∧
    (500.4 < pm25 → calculate_aqi pm25 = 500) := by
  intro pm25
  refine ⟨fun h1 h2 => ?_, fun h1 h2 => ?_, fun h1 h2 => ?_, fun h1 h2 => ?_,
    fun h1 h2 => ?_, fun h1 h2 => ?_, fun h1 h2 => ?_, fun h => ?_⟩
  · rw [aqi_bucket1 pm25 h1 h2]; congr 1; ring
  · rw [aqi_bucket2 pm25 h1 h2]; congr 1; ring
  · rw [aqi_bucket3 pm25 h1 h2]; congr 1; ring
  · rw [aqi_bucket4 pm25 h1 h2]; congr 1; ring
  · rw [aqi_bucket5 pm25 h1 h2]; congr 1; ring
  · rw [aqi_bucket6 pm25 h1 h2]; congr 1; ring
  · rw [aqi_bucket7 pm25 h1 h2]; congr 1; ring
  · unfold calculate_aqi breakpoints
    rw [scanBreakpoints_cons, if_neg (by rintro ⟨-, hc⟩; linarith),
      scanBreakpoints_cons, if_neg (by rintro ⟨-, hc⟩; linarith),
      scanBreakpoints_cons, if_neg (by rintro ⟨-, hc⟩; linarith),
      scanBreakpoints_cons, if_neg (by rintro ⟨-, hc⟩; linarith),
      scanBreakpoints_cons, if_neg (by rintro ⟨-, hc⟩; linarith),
      scanBreakpoints_cons, if_neg (by rintro ⟨-, hc⟩; linarith),
      scanBreakpoints_cons, if_neg (by rintro ⟨-, hc⟩; linarith)]
    rfl

/-- C2 (witness): the capping clause applied at `pm25 = 600`. -/
theorem aqi_formula_witness : calculate_aqi 600 = 500 :=
  (aqi_formula_correct 600).2.2.2.2.2.2.2 (by norm_num)

/-- C10: every PM2.5 value matching no breakpoint range other than by
exceeding 500.4 — negative values and values strictly inside one of the
six inter-bucket gaps — makes `calculate_aqi` return the same capped
value 500. -/
theorem aqi_gap_returns_500 : ∀ x : ℚ,
    (x < 0 ∨ (12 < x ∧ x < 12.1) ∨ (35.4 < x ∧ x < 35.5) ∨
     (55.4 < x ∧ x < 55.5) ∨ (150.4 < x ∧ x < 150.5) ∨
     (250.4 < x ∧ x < 250.5) ∨ (350.4 < x ∧ x < 350.5)) →
    calculate_aqi x = 500 := by
  intro x h
  unfold calculate_aqi breakpoints
  rcases h with h | ⟨h1, h2⟩ | ⟨h1, h2⟩ | ⟨h1, h2⟩ | ⟨h1, h2⟩ | ⟨h1, h2⟩ | ⟨h1, h2⟩ <;>
  · rw [scanBreakpoints_cons, if_neg (by rintro ⟨hc1, hc2⟩; linarith),
      scanBreakpoints_cons, if_neg (by rintro ⟨hc1, hc2⟩; linarith),
      scanBreakpoints_cons, if_neg (by rintro ⟨hc1, hc2⟩; linarith),
      scanBreakpoints_cons, if_neg (by rintro ⟨hc1, hc2⟩; linarith),
      scanBreakpoints_cons, if_neg (by rintro ⟨hc1, hc2⟩; linarith),
      scanBreakpoints_cons, if_neg (by rintro ⟨hc1, hc2⟩; linarith),
      scanBreakpoints_cons, if_neg (by rintro ⟨hc1, hc2⟩; linarith)]
    rfl

/-- C10 (witness): a negative PM2.5 value yields the capped AQI 500. -/
theorem aqi_gap_witness : calculate_aqi (-1) = 500 :=
  aqi_gap_returns_500 (-1) (Or.inl (by norm_num))

/-- Result dict of the status helpers: level, Bootstrap color token, text. -/
structure Status where
  level : String
  color : String
  description : String
deriving DecidableEq

/-- `calculate_aqi_status` from `src/app/services/aqi.py` (= `src/utils.py`):
six-bucket qualitative classification of a PM2.5 value. -/
def calculate_aqi_status (pm25 : ℚ) : Status :=
  if pm25 ≤ 12 then
    ⟨"Good", "success", "Air quality is satisfactory"⟩
  else if pm25 ≤ 35.4 then
    ⟨"Moderate", "warning", "Air quality is acceptable"⟩
  else if pm25 ≤ 55.4 then
    ⟨"Unhealthy for Sensitive Groups", "orange",
      "Sensitive individuals should limit outdoor activity"⟩
  else if pm25 ≤ 150.4 then
    ⟨"Unhealthy", "danger", "Everyone may experience health effects"⟩
  else if pm25 ≤ 250.4 then
    ⟨"Very Unhealthy", "purple", "Health alert: serious effects possible"⟩
  else
    ⟨"Hazardous", "dark", "Health warning of emergency conditions"⟩

/-- Argument of the environmental status helpers: Python `None`, a numeric
value, or a value on which `float()` raises (e.g. a non-numeric string). -/
inductive FloatArg where
  | none
  | num (q : ℚ)
  | invalid
deriving DecidableEq

/-- `get_temperature_status` from `src/app/services/aqi.py`. -/
def get_temperature_status (tempCelsius : FloatArg) : Status :=
  match tempCelsius with
  | .none => ⟨"No Data", "secondary", "Temperature data not available"⟩
  | .invalid => ⟨"No Data", "secondary", "Invalid temperature value"⟩
  | .num t =>
    if t ≤ 15 then ⟨"Cool", "info", "Temperature is relatively cool"⟩
    else if t ≤ 25 then ⟨"Normal", "success", "Temperature is in the normal range"⟩
    else ⟨"Hot", "danger", "Temperature is relatively high"⟩

/-- `get_noise_status` from `src/app/services/aqi.py`. -/
def get_noise_status (noiseDb : FloatArg) : Status :=
  match noiseDb with
  | .none => ⟨"No Data", "secondary", "Noise data not available"⟩
  | .invalid => ⟨"No Data", "secondary", "Invalid noise value"⟩
  | .num n =>
    if n < 60 then ⟨"Low", "success", "Low ambient noise"⟩
    else if n ≤ 75 then ⟨"Moderate", "warning", "Moderate noise levels"⟩
    else ⟨"High", "danger", "High noise levels"⟩

/-- The simplified 3-bucket EPA category computed inline in
`get_zone_data` (`src/app/dashboard/services.py`) and in the `dashboard`
view of `src/app.py`. -/
def epa_category (pm25 : ℚ) : String :=
  if pm25 ≤ 12 then "Good"
  else if pm25 ≤ 35 then "Moderate"
  else "Unhealthy"

/-- The temporal-comparison fields computed per zone in `get_zone_data`
(`src/app/dashboard/services.py`, identically in `src/app.py`):
`pm25_change` (rounded to 2 decimals), `pm25_change_pct` and `trend`. -/
structure TrendResult where
  change : Option ℚ
  pct : Option ℚ
  label : String
deriving DecidableEq

/-- Trend computation from `get_zone_data`: `previous = none` models the
absence of a previous reading. -/
def compute_trend (current : ℚ) (previous : Option ℚ) : TrendResult :=
  match previous with
  | Option.none => ⟨Option.none, Option.none, "No Data"⟩
  | Option.some prev =>
    let change := current - prev
    let pct : Option ℚ :=
      if prev ≠ 0 then Option.some (roundTo 2 (change / prev * 100)) else Option.none
    let label :=
      match pct with
      | Option.some p =>
        if |p| < 1 then "Stable"
        else if change > 0 then "Increasing" else "Decreasing"
      | Option.none => if change > 0 then "Increasing" else "Decreasing"
    ⟨Option.some (roundTo 2 change), pct, label⟩

/-- `compute_comparison` from `enrich_zone_data_with_realtime`
(`src/app/dashboard/services.py`, identically in `src/app.py`): a `none`
or `invalid` operand makes the `abs(sim - real)` arithmetic raise, which
the function catches and turns into a `No Data` result. -/
def compute_comparison (sim real : FloatArg) : Option ℚ × Option ℚ × String :=
  match real with
  | .none => (Option.none, Option.none, "No Data")
  | .invalid => (Option.none, Option.none, "No Data")
  | .num r =>
    match sim with
    | .num s =>
      let absDiff := roundTo 2 |s - r|
      let pct : Option ℚ :=
        if r ≠ 0 then Option.some (roundTo 2 (absDiff / r * 100)) else Option.none
      let status := if s > r then "Above" else if s < r then "Below" else "Equal"
      (Option.some absDiff, pct, status)
    | _ => (Option.none, Option.none, "No Data")

lemma compute_trend_some (current prev : ℚ) :
    compute_trend current (Option.some prev) =
      ⟨Option.some (roundTo 2 (current - prev)),
       if prev ≠ 0 then Option.some (roundTo 2 ((current - prev) / prev * 100))
       else Option.none,
       if prev ≠ 0 then
         (if |roundTo 2 ((current - prev) / prev * 100)| < 1 then "Stable"
          else if current - prev > 0 then "Increasing" else "Decreasing")
       else (if current - prev > 0 then "Increasing" else "Decreasing")⟩ := by
  unfold compute_trend
  by_cases hp : prev = 0 <;> simp [hp]

/-- C5: the six-bucket status classifier returns Good up to 12.0, Moderate
up to 35.4, Unhealthy for Sensitive Groups up to 55.4, Unhealthy up to
150.4, Very Unhealthy up to 250.4 and Hazardous above, each with its fixed
color token and text, and in particular classifies 12.0 as Good, 12.1 as
Moderate, 55.5 as Unhealthy and 1000 as Hazardous. -/
theorem status_classifier_correct : ∀ pm25 : ℚ,
    (pm25 ≤ 12 → calculate_aqi_status pm25 =
      ⟨"Good", "success", "Air quality is satisfactory"⟩) ∧
    (12 < pm25 → pm25 ≤ 35.4 → calculate_aqi_status pm25 =
      ⟨"Moderate", "warning", "Air quality is acceptable"⟩) ∧
    (35.4 < pm25 → pm25 ≤ 55.4 → calculate_aqi_status pm25 =
      ⟨"Unhealthy for Sensitive Groups", "orange",
        "Sensitive individuals should limit outdoor activity"⟩) ∧
    (55.4 < pm25 → pm25 ≤ 150.4 → calculate_aqi_status pm25 =
      ⟨"Unhealthy", "danger", "Everyone may experience health effects"⟩) ∧
    (150.4 < pm25 → pm25 ≤ 250.4 → calculate_aqi_status pm25 =
      ⟨"Very Unhealthy", "purple", "Health alert: serious effects possible"⟩) ∧
    (250.4 < pm25 → calculate_aqi_status pm25 =
      ⟨"Hazardous", "dark", "Health warning of emergency conditions"⟩) ∧
    (calculate_aqi_status 12).level = "Good" ∧
    (calculate_aqi_status 12.1).level = "Moderate" ∧
    (calculate_aqi_status 55.5).level = "Unhealthy" ∧
    (calculate_aqi_status 1000).level = "Hazardous" := by
  intro pm25
  unfold calculate_aqi_status
  refine ⟨fun h => ?_, fun h1 h2 => ?_, fun h1 h2 => ?_, fun h1 h2 => ?_,
    fun h1 h2 => ?_, fun h1 => ?_, by norm_num, by norm_num, by norm_num, by norm_num⟩
  · rw [if_pos h]
  · rw [if_neg (by linarith), if_pos h2]
  · rw [if_neg (by linarith), if_neg (by linarith), if_pos h2]
  · rw [if_neg (by linarith), if_neg (by linarith), if_neg (by linarith), if_pos h2]
  · rw [if_neg (by linarith), if_neg (by linarith), if_neg (by linarith),
      if_neg (by linarith), if_pos h2]
  · rw [if_neg (by linarith), if_neg (by linarith), if_neg (by linarith),
      if_neg (by linarith), if_neg (by linarith)]

/-- C5 (witness): the Good clause applied at `pm25 = 5`. -/
theorem status_classifier_witness :
    calculate_aqi_status 5 = ⟨"Good", "success", "Air quality is satisfactory"⟩ :=
  (status_classifier_correct 5).1 (by norm_num)

/-- C6: the simplified 3-bucket EPA category is Good up to 12.0, Moderate
up to 35.0 and Unhealthy above, so for `35.0 < pm25 ≤ 35.4` it says
Unhealthy while the six-bucket classifier still says Moderate. -/
theorem epa_category_correct : ∀ pm25 : ℚ,
    (pm25 ≤ 12 → epa_category pm25 = "Good") ∧
    (12 < pm25 → pm25 ≤ 35 → epa_category pm25 = "Moderate") ∧
    (35 < pm25 → epa_category pm25 = "Unhealthy") ∧
    (35 < pm25 → pm25 ≤ 35.4 →
      epa_category pm25 = "Unhealthy" ∧
      (calculate_aqi_status pm25).level = "Moderate") := by
  intro pm25
  refine ⟨fun h => ?_, fun h1 h2 => ?_, fun h1 => ?_, fun h1 h2 => ⟨?_, ?_⟩⟩
  · unfold epa_category; rw [if_pos h]
  · unfold epa_category; rw [if_neg (by linarith), if_pos h2]
  · unfold epa_category; rw [if_neg (by linarith), if_neg (by linarith)]
  · unfold epa_category; rw [if_neg (by linarith), if_neg (by linarith)]
  · rw [(status_classifier_correct pm25).2.1 (by linarith) h2]

/-- C6 (witness): the divergent band applied at `pm25 = 35.2`. -/
theorem epa_category_witness :
    epa_category 35.2 = "Unhealthy" ∧
    (calculate_aqi_status 35.2).level = "Moderate" :=
  (epa_category_correct 35.2).2.2.2 (by norm_num) (by norm_num)

/-- C7: the temperature and noise classifiers are total: None or
unparseable input yields a No Data level, a numeric temperature is Cool
up to 15.0, Normal up to 25.0, else Hot, and a numeric noise level is Low
below 60.0, Moderate up to 75.0, else High. -/
theorem env_classifiers_total :
    (get_temperature_status FloatArg.none).level = "No Data" ∧
    (get_temperature_status FloatArg.invalid).level = "No Data" ∧
    (∀ t : ℚ, (get_temperature_status (FloatArg.num t)).level =
      if t ≤ 15 then "Cool" else if t ≤ 25 then "Normal" else "Hot") ∧
    (get_noise_status FloatArg.none).level = "No Data" ∧
    (get_noise_status FloatArg.invalid).level = "No Data" ∧
    (∀ n : ℚ, (get_noise_status (FloatArg.num n)).level =
      if n < 60 then "Low" else if n ≤ 75 then "Moderate" else "High") := by
  refine ⟨rfl, rfl, fun t => ?_, rfl, rfl, fun n => ?_⟩
  · simp only [get_temperature_status]
    split_ifs <;> rfl
  · simp only [get_noise_status]
    split_ifs <;> rfl

/-- C4: `compute_comparison` returns a No Data triple when the real value
is missing or either value is non-numeric; otherwise it returns the
rounded absolute difference, a percentage difference that is None when
the real value is 0 (never a division error), and an Above / Below /
Equal status. -/
theorem comparison_spec_correct : ∀ sim : FloatArg,
    compute_comparison sim FloatArg.none = (Option.none, Option.none, "No Data") ∧
    compute_comparison sim FloatArg.invalid = (Option.none, Option.none, "No Data") ∧
    (∀ r : ℚ, sim = FloatArg.none ∨ sim = FloatArg.invalid →
      compute_comparison sim (FloatArg.num r) = (Option.none, Option.none, "No Data")) ∧
    (∀ s r : ℚ, compute_comparison (FloatArg.num s) (FloatArg.num r) =
      (Option.some (roundTo 2 |s - r|),
       if r ≠ 0 then Option.some (roundTo 2 (roundTo 2 |s - r| / r * 100))
       else Option.none,
       if s > r then "Above" else if s < r then "Below" else "Equal")) := by
  intro sim
  refine ⟨rfl, rfl, fun r h => ?_, fun s r => rfl⟩
  rcases h with h | h <;> subst h <;> rfl

/-- C4 (witness): a non-numeric simulated value with a numeric real value
yields the No Data triple. -/
theorem comparison_spec_witness :
    compute_comparison FloatArg.none (FloatArg.num 5) =
      (Option.none, Option.none, "No Data") :=
  (comparison_spec_correct FloatArg.none).2.2.1 5 (Or.inl rfl)

/-- C3 (counterexample): the claim that the trend result's change equals
`current - previous` is false: the code stores `round(change, 2)`, so for
`current = 1/1000` and `previous = 0` the stored change is `0`, not
`1/1000`. -/
theorem trend_change_not_exact :
    (compute_trend (1/1000) (Option.some 0)).change ≠
      Option.some ((1 : ℚ)/1000 - 0) := by
  rw [compute_trend_some]
  norm_num [roundTo, rne]

/-- C3 (amended): with no previous reading the trend result is
`(null, null, No Data)`; otherwise the stored change is
`round(current - previous, 2)` (rounded, not the raw difference), pct is
`round(change/previous*100, 2)` when `previous ≠ 0` and null otherwise,
the label is Stable exactly when pct is non-null with `|pct| < 1`, any
other label is Increasing when the raw change is positive and Decreasing
otherwise, and in particular for `previous = 0` with nonzero change the
label comes from the sign of the change, never Stable or No Data. -/
theorem trend_spec_correct : ∀ current previous : ℚ,
    compute_trend current Option.none =
      ⟨Option.none, Option.none, "No Data"⟩ ∧
    (compute_trend current (Option.some previous)).change =
      Option.some (roundTo 2 (current - previous)) ∧
    (compute_trend current (Option.some previous)).pct =
      (if previous ≠ 0 then
        Option.some (roundTo 2 ((current - previous) / previous * 100))
       else Option.none) ∧
    ((compute_trend current (Option.some previous)).label = "Stable" ↔
      ∃ v, (compute_trend current (Option.some previous)).pct = Option.some v ∧
        |v| < 1) ∧
    ((compute_trend current (Option.some previous)).label ≠ "Stable" →
      (compute_trend current (Option.some previous)).label =
        (if current - previous > 0 then "Increasing" else "Decreasing")) ∧
    (previous = 0 → current - previous ≠ 0 →
      (compute_trend current (Option.some previous)).label =
        (if current - previous > 0 then "Increasing" else "Decreasing") ∧
      (compute_trend current (Option.some previous)).label ≠ "Stable" ∧
      (compute_trend current (Option.some previous)).label ≠ "No Data") := by
  intro current previous
  have hch : (compute_trend current (Option.some previous)).change =
      Option.some (roundTo 2 (current - previous)) := by
    rw [compute_trend_some]
  have hpc : (compute_trend current (Option.some previous)).pct =
      (if previous ≠ 0 then
        Option.some (roundTo 2 ((current - previous) / previous * 100))
       else Option.none) := by
    rw [compute_trend_some]
  have hlb : (compute_trend current (Option.some previous)).label =
      (if previous ≠ 0 then
        (if |roundTo 2 ((current - previous) / previous * 100)| < 1 then "Stable"
         else if current - previous > 0 then "Increasing" else "Decreasing")
       else (if current - previous > 0 then "Increasing" else "Decreasing")) := by
    rw [compute_trend_some]
  refine ⟨rfl, hch, hpc, ?_, ?_, ?_⟩
  · rw [hlb, hpc]
    by_cases hp : previous = 0
    · rw [if_neg (not_not_intro hp), if_neg (not_not_intro hp)]
      constructor
      · intro hlab
        exfalso
        revert hlab
        split_ifs <;> decide
      · rintro ⟨v, hv, -⟩
        exact Option.noConfusion hv
    · rw [if_pos hp, if_pos hp]
      by_cases hs : |roundTo 2 ((current - previous) / previous * 100)| < 1
      · rw [if_pos hs]
        exact ⟨fun _ => ⟨_, rfl, hs⟩, fun _ => rfl⟩
      · rw [if_neg hs]
        constructor
        · intro hlab
          exfalso
          revert hlab
          split_ifs <;> decide
        · rintro ⟨v, hv, hv1⟩
          rw [Option.some.injEq] at hv
          exact absurd (hv ▸ hv1) hs
  · rw [hlb]
    by_cases hp : previous = 0
    · rw [if_neg (not_not_intro hp)]
      exact fun _ => rfl
    · rw [if_pos hp]
      by_cases hs : |roundTo 2 ((current - previous) / previous * 100)| < 1
      · rw [if_pos hs]
        exact fun hlab => absurd rfl hlab
      · rw [if_neg hs]
        exact fun _ => rfl
  · intro hp hc
    rw [hlb, if_neg (not_not_intro hp)]
    refine ⟨rfl, ?_, ?_⟩ <;> split_ifs <;> decide

/-- C3 (witness): the zero-previous clause applied at
`current = 1, previous = 0`. -/
theorem trend_spec_witness :
    (compute_trend 1 (Option.some 0)).label = "Increasing" := by
  have h := (trend_spec_correct 1 0).2.2.2.2.2 rfl (by norm_num)
  rw [h.1]
  norm_num

/-- One reading's worth of draws from Python's `random.uniform` in
`simulate_pollution_data` (`src/app/services/simulation.py`, identical in
`src/utils.py`): pm25 noise, pm10 factor, pm10 offset, noise offset and
temperature offset, in the order the code draws them. -/
structure Draws where
  u1 : ℚ
  r : ℚ
  s : ℚ
  un : ℚ
  ut : ℚ
deriving DecidableEq

/-- Ranges of the five `random.uniform` calls (`uniform(a, b)` returns a
value in `[a, b]`, endpoints included). -/
def Draws.valid (d : Draws) : Prop :=
  -10 ≤ d.u1 ∧ d.u1 ≤ 15 ∧ 1.5 ≤ d.r ∧ d.r ≤ 2 ∧ -5 ≤ d.s ∧ d.s ≤ 10 ∧
  -10 ≤ d.un ∧ d.un ≤ 10 ∧ -5 ≤ d.ut ∧ d.ut ≤ 15

/-- Per-zone simulation baselines. -/
structure Characteristics where
  pm25_base : ℚ
  pm10_base : ℚ
  noise_base : ℚ
deriving DecidableEq

/-- `ZONE_CHARACTERISTICS.get(zone.name, DEFAULT_CHARACTERISTICS)` from
`src/app/services/simulation.py`. -/
def zone_characteristics (name : String) : Characteristics :=
  if name = "Kathmandu" then ⟨35, 50, 75⟩
  else if name = "Bhaktapur" then ⟨25, 40, 55⟩
  else if name = "Pokhara" then ⟨28, 42, 58⟩
  else if name = "Gulmikot" then ⟨55, 80, 85⟩
  else if name = "Lalitpur" then ⟨15, 25, 45⟩
  else if name = "Biratnagar" then ⟨30, 45, 65⟩
  else ⟨30, 45, 60⟩

/-- Time-of-day factor from `simulate_pollution_data`: 1.3 during rush
hours, 0.7 at night, 1.0 otherwise. -/
def time_factor (hour : ℕ) : ℚ :=
  if (7 ≤ hour ∧ hour ≤ 9) ∨ (17 ≤ hour ∧ hour ≤ 19) then 1.3
  else if 22 ≤ hour ∨ hour ≤ 5 then 0.7
  else 1

/-- A generated `PollutionReading`; the timestamp is kept as the signed
minute offset from generation time (`utcnow`), the database columns tied
to ORM plumbing (ids) are omitted. -/
structure Reading where
  timestampMin : ℤ
  pm25 : ℚ
  pm10 : ℚ
  noise_level : ℚ
  temperature : ℚ
  aqi : ℤ
deriving DecidableEq

/-- Body of the inner loop of `simulate_pollution_data` for iteration `i`:
`hourOf` maps a minute offset to the wall-clock hour `timestamp.hour` of
that moment, `d` holds the reading's random draws.  Note the code computes
`aqi` from the unrounded pm25 value. -/
def make_reading (ch : Characteristics) (hourOf : ℤ → ℕ) (numReadings i : ℕ)
    (d : Draws) : Reading :=
  let timestampMin : ℤ := -(10 * ((numReadings : ℤ) - (i : ℤ) - 1))
  let hour := hourOf timestampMin
  let tf := time_factor hour
  let pm25 := max 5 (ch.pm25_base * tf + d.u1)
  let pm10 := max 10 (pm25 * d.r + d.s)
  let noise_level := max 40 (min 100 (ch.noise_base + d.un))
  let temp := 20 + d.ut
  { timestampMin := timestampMin,
    pm25 := roundTo 2 pm25,
    pm10 := roundTo 2 pm10,
    noise_level := roundTo 1 noise_level,
    temperature := roundTo 1 temp,
    aqi := calculate_aqi pm25 }

/-- The readings generated for one zone by `simulate_pollution_data`. -/
def simulate_zone (ch : Characteristics) (hourOf : ℤ → ℕ) (numReadings : ℕ)
    (d : ℕ → Draws) : List Reading :=
  (List.range numReadings).map (fun i => make_reading ch hourOf numReadings i (d i))

/-- `simulate_pollution_data` over a list of zone names: one list of
readings per zone, `draws` supplies each zone's random draws. -/
def simulate_pollution_data (zones : List String) (hourOf : ℤ → ℕ)
    (numReadings : ℕ) (draws : String → ℕ → Draws) : List (List Reading) :=
  zones.map (fun name => simulate_zone (zone_characteristics name) hourOf
    numReadings (draws name))

lemma make_reading_bounds (ch : Characteristics) (hourOf : ℤ → ℕ) (n i : ℕ)
    (d : Draws) :
    5 ≤ (make_reading ch hourOf n i d).pm25 ∧
    10 ≤ (make_reading ch hourOf n i d).pm10 ∧
    40 ≤ (make_reading ch hourOf n i d).noise_level ∧
    (make_reading ch hourOf n i d).noise_level ≤ 100 := by
  simp only [make_reading]
  refine ⟨?_, ?_, ?_, ?_⟩
  · have h := le_roundTo 2 5 (max 5 (ch.pm25_base *
      time_factor (hourOf (-(10 * ((n : ℤ) - (i : ℤ) - 1)))) + d.u1))
      (by push_cast; exact le_max_left _ _)
    exact_mod_cast h
  · have h := le_roundTo 2 10 (max 10 ((max 5 (ch.pm25_base *
      time_factor (hourOf (-(10 * ((n : ℤ) - (i : ℤ) - 1)))) + d.u1)) * d.r + d.s))
      (by push_cast; exact le_max_left _ _)
    exact_mod_cast h
  · have h := le_roundTo 1 40 (max 40 (min 100 (ch.noise_base + d.un)))
      (by push_cast; exact le_max_left _ _)
    exact_mod_cast h
  · have h := roundTo_le 1 100 (max 40 (min 100 (ch.noise_base + d.un)))
      (by push_cast; exact max_le (by norm_num) (min_le_left _ _))
    exact_mod_cast h

lemma simulate_zone_five (ch : Characteristics) (hourOf : ℤ → ℕ) (d : ℕ → Draws) :
    (simulate_zone ch hourOf 5 d).length = 5 ∧
    (simulate_zone ch hourOf 5 d).map (fun r => r.timestampMin) =
      [-40, -30, -20, -10, 0] ∧
    ∀ r ∈ simulate_zone ch hourOf 5 d,
      5 ≤ r.pm25 ∧ 10 ≤ r.pm10 ∧ 40 ≤ r.noise_level ∧ r.noise_level ≤ 100 := by
  have h5 : List.range 5 = [0, 1, 2, 3, 4] := rfl
  refine ⟨by simp [simulate_zone], ?_, ?_⟩
  · simp only [simulate_zone, h5, List.map_cons, List.map_nil, make_reading]
    norm_num
  · intro r hr
    simp only [simulate_zone, h5, List.map_cons, List.map_nil,
      List.mem_cons, List.not_mem_nil, or_false] at hr
    rcases hr with rfl | rfl | rfl | rfl | rfl <;>
      exact make_reading_bounds ch hourOf 5 _ (d _)

/-- C8: for every zone and every outcome of the random source,
`simulate_pollution_data` with `num_readings = 5` produces exactly 5
readings for that zone, with strictly increasing timestamps spaced
exactly 10 minutes apart and ending at generation time (minute offsets
`[-40, -30, -20, -10, 0]`), and every reading has `pm25 ≥ 5`,
`pm10 ≥ 10` and `40 ≤ noise_level ≤ 100` after rounding. -/
theorem simulate_five_readings : ∀ (zones : List String) (hourOf : ℤ → ℕ)
    (draws : String → ℕ → Draws),
    (∀ z i, (draws z i).valid) →
    ∀ rs ∈ simulate_pollution_data zones hourOf 5 draws,
      rs.length = 5 ∧
      rs.map (fun r => r.timestampMin) = [-40, -30, -20, -10, 0] ∧
      ∀ r ∈ rs, 5 ≤ r.pm25 ∧ 10 ≤ r.pm10 ∧
        40 ≤ r.noise_level ∧ r.noise_level ≤ 100 := by
  intro zones hourOf draws _ rs hrs
  simp only [simulate_pollution_data, List.mem_map] at hrs
  obtain ⟨name, -, rfl⟩ := hrs
  exact simulate_zone_five (zone_characteristics name) hourOf (draws name)

/-- C8 (witness): the per-zone count applied to a single Kathmandu zone
with constant midday draws. -/
theorem simulate_five_witness :
    (simulate_zone (zone_characteristics "Kathmandu") (fun _ => 12) 5
      (fun _ => ⟨0, 1.5, 0, 0, 0⟩)).length = 5 := by
  have h := simulate_five_readings ["Kathmandu"] (fun _ => 12)
    (fun _ _ => ⟨0, 1.5, 0, 0, 0⟩)
    (fun z i => by norm_num [Draws.valid])
    (simulate_zone (zone_characteristics "Kathmandu") (fun _ => 12) 5
      (fun _ => ⟨0, 1.5, 0, 0, 0⟩))
    (by simp [simulate_pollution_data])
  exact h.1

/-- C9 (counterexample): the stored pm10 does not always strictly exceed
the stored pm25: for the Lalitpur baselines at a neutral hour, the
boundary draws `u1 = -5, r = 1.5, s = -5` give raw pm25 = 10 and raw
pm10 = max(10, 15 - 5) = 10, so both stored values are 10.0. -/
theorem generator_pm10_not_strict :
    Draws.valid ⟨-5, 1.5, -5, 0, 0⟩ ∧
    (make_reading (zone_characteristics "Lalitpur") (fun _ => 12) 5 0
      ⟨-5, 1.5, -5, 0, 0⟩).pm25 = 10 ∧
    (make_reading (zone_characteristics "Lalitpur") (fun _ => 12) 5 0
      ⟨-5, 1.5, -5, 0, 0⟩).pm10 = 10 ∧
    ¬((make_reading (zone_characteristics "Lalitpur") (fun _ => 12) 5 0
      ⟨-5, 1.5, -5, 0, 0⟩).pm25 <
      (make_reading (zone_characteristics "Lalitpur") (fun _ => 12) 5 0
      ⟨-5, 1.5, -5, 0, 0⟩).pm10) := by
  have hz : zone_characteristics "Lalitpur" = (⟨15, 25, 45⟩ : Characteristics) := rfl
  have htf : time_factor 12 = 1 := by norm_num [time_factor]
  have h25 : (make_reading (zone_characteristics "Lalitpur") (fun _ => 12) 5 0
      ⟨-5, 1.5, -5, 0, 0⟩).pm25 = 10 := by
    simp only [make_reading, hz, htf]
    norm_num
    exact_mod_cast roundTo_intCast 2 10
  have h10 : (make_reading (zone_characteristics "Lalitpur") (fun _ => 12) 5 0
      ⟨-5, 1.5, -5, 0, 0⟩).pm10 = 10 := by
    simp only [make_reading, hz, htf]
    norm_num
    exact_mod_cast roundTo_intCast 2 10
  refine ⟨by norm_num [Draws.valid], h25, h10, ?_⟩
  rw [h25, h10]
  exact lt_irrefl 10

/-- C9 (amended): for every zone baseline and every outcome of the random
source, the stored pm10 is greater than or equal to the stored pm25
(equality is attainable at boundary outcomes, so the inequality is not
strict). -/
theorem generator_pm10_ge_pm25 : ∀ (ch : Characteristics) (hourOf : ℤ → ℕ)
    (n i : ℕ) (d : Draws), d.valid →
    (make_reading ch hourOf n i d).pm25 ≤ (make_reading ch hourOf n i d).pm10 := by
  intro ch hourOf n i d hd
  obtain ⟨-, -, hr, -, hs, -, -, -, -, -⟩ := hd
  simp only [make_reading]
  apply roundTo_mono
  set p := max 5 (ch.pm25_base *
    time_factor (hourOf (-(10 * ((n : ℤ) - (i : ℤ) - 1)))) + d.u1) with hp
  have hp5 : (5 : ℚ) ≤ p := le_max_left _ _
  rcases le_or_lt p 10 with h | h
  · exact le_trans h (le_max_left _ _)
  · refine le_trans ?_ (le_max_right 10 _)
    have hp0 : (0 : ℚ) ≤ p := by linarith
    have hpr : p * 1.5 ≤ p * d.r := mul_le_mul_of_nonneg_left hr hp0
    nlinarith

/-- C9 (witness): the non-strict inequality at the Kathmandu baselines
with neutral draws. -/
theorem generator_pm10_witness :
    (make_reading (zone_characteristics "Kathmandu") (fun _ => 12) 5 0
      ⟨0, 1.5, 0, 0, 0⟩).pm25 ≤
    (make_reading (zone_characteristics "Kathmandu") (fun _ => 12) 5 0
      ⟨0, 1.5, 0, 0, 0⟩).pm10 :=
  generator_pm10_ge_pm25 (zone_characteristics "Kathmandu") (fun _ => 12) 5 0
    ⟨0, 1.5, 0, 0, 0⟩ (by norm_num [Draws.valid])

end SmartCity
